import Mathlib

/-!
Shallow embedding of `src/scripts/md_to_pdf_converter.py` (obinexus/phd).

The script is a linear orchestration pipeline:
dependency check → CLI argument parsing → input-directory validation →
`*.md` discovery → per-file pandoc conversion with a 120 s timeout →
success/failure aggregation → zip archiving of `*.pdf` files found in the
output directory → exit code.

File names are modelled as `List Char` / `String`, paths as `List String`
of components (`p / name` in Python becomes `p ++ [name]`).  Subprocess
behaviour, filesystem contents and the wall clock are inputs of the model
(an `Env`); everything the script itself computes is embedded faithfully.
-/

namespace MdToPdf

/-! ### Python `pathlib` name arithmetic

`Path.with_suffix` keys on the position of the last dot of the final
component: the suffix is `name[i:]` when the last dot sits at index `i`
with `0 < i < len(name) - 1`, and is empty otherwise. -/

/-- Index of the last occurrence of a dot in a name, if any. -/
def rfindDot : List Char → Option Nat
  | [] => none
  | c :: cs =>
    match rfindDot cs with
    | some i => some (i + 1)
    | none => if c = '.' then some 0 else none

/-- Length of the Python `Path.suffix` of a name: positive only when the
last dot is neither the first nor the last character. -/
def pySuffixLen (name : List Char) : Nat :=
  match rfindDot name with
  | some i => if 0 < i ∧ i + 1 < name.length then name.length - i else 0
  | none => 0

/-- The Python `Path.stem` of a name: the name with its suffix removed. -/
def pyStem (name : List Char) : List Char :=
  name.take (name.length - pySuffixLen name)

/-- Python `Path.with_suffix`: drop the old suffix (when there is one) and
append the new one. -/
def pyWithSuffix (name newSuffix : List Char) : List Char :=
  let k := pySuffixLen name
  if k = 0 then name ++ newSuffix
  else name.take (name.length - k) ++ newSuffix

/-- Line 42 of the script applied to a file name:
`md_path.with_suffix('.pdf').name`. -/
def withSuffixPdf (name : String) : String :=
  ⟨pyWithSuffix name.data ['.', 'p', 'd', 'f']⟩

/-- Line 42 of the script: `pdf_path = output_dir / md_path.with_suffix('.pdf').name`. -/
def pdfPathFor (outputDir : List String) (mdName : String) : List String :=
  outputDir ++ [withSuffixPdf mdName]

/-! ### Subprocess outcomes and `convert_md_to_pdf` (lines 39–82) -/

/-- What the `subprocess.run` call inside `convert_md_to_pdf` can do:
run to completion with a return code and captured stderr, exceed the
120-second timeout (`subprocess.TimeoutExpired`), or raise some other
exception. -/
inductive ConvOutcome where
  | completed (returncode : Int) (stderr : String)
  | timedOut
  | exn (msg : String)
deriving DecidableEq, Repr

/-- `convert_md_to_pdf`, lines 62–82: `True` exactly when the subprocess
completes with return code 0; every `except` arm returns `False`, so the
function is total (it never re-raises to its caller). -/
def convert_md_to_pdf (o : ConvOutcome) : Bool :=
  match o with
  | ConvOutcome.completed rc _ => rc = 0
  | ConvOutcome.timedOut => false
  | ConvOutcome.exn _ => false

/-! ### `check_dependencies` (lines 14–37) -/

/-- What invoking `<tool> --version` can do: raise `FileNotFoundError`
(the only exception caught), or actually start and finish with some
return code.  The return code is ignored by the script. -/
inductive InvokeResult where
  | fileNotFound
  | ran (returncode : Int)
deriving DecidableEq, Repr

/-- The `missing` list built by lines 21–26: a tool is appended exactly
when its invocation raises `FileNotFoundError`; `pandoc` is tried first. -/
def missingTools (pandocInvoke pdflatexInvoke : InvokeResult) : List String :=
  (if pandocInvoke = InvokeResult.fileNotFound then ["pandoc"] else []) ++
  (if pdflatexInvoke = InvokeResult.fileNotFound then ["pdflatex"] else [])

/-- `check_dependencies`, lines 14–37: returns `True` iff `missing` is empty. -/
def check_dependencies (pandocInvoke pdflatexInvoke : InvokeResult) : Bool :=
  missingTools pandocInvoke pdflatexInvoke = []

/-! ### The conversion loop (lines 150–157) -/

/-- The loop state of lines 150–151 plus, for specification purposes, the
ordered list of files on which `convert_md_to_pdf` has been invoked. -/
structure ConvState where
  successCount : Nat
  failedFiles : List String
  attempted : List String
deriving DecidableEq, Repr

/-- One iteration of the `for md_file in md_files` loop (lines 153–157). -/
def convStep (outcome : String → ConvOutcome) (s : ConvState) (f : String) : ConvState :=
  if convert_md_to_pdf (outcome f) then
    { s with successCount := s.successCount + 1, attempted := s.attempted ++ [f] }
  else
    { s with failedFiles := s.failedFiles ++ [f], attempted := s.attempted ++ [f] }

/-- The whole conversion loop, starting from `success_count = 0`,
`failed_files = []`. -/
def convLoop (outcome : String → ConvOutcome) (files : List String) : ConvState :=
  files.foldl (convStep outcome) ⟨0, [], []⟩

/-! ### `create_zip_archive` (lines 84–101) -/

/-- Result of `create_zip_archive`: the returned boolean, and the member
name list of the zip file if one was written (`none` when the early
`return False` fires before `zipfile.ZipFile(...)` opens the file). -/
structure ZipResult where
  ok : Bool
  written : Option (List String)
deriving DecidableEq, Repr

/-- `create_zip_archive`, lines 84–101, as a function of the fresh
`pdf_dir.glob('*.pdf')` listing (line 88): with an empty listing it
returns `False` without creating any file; otherwise it writes every
listed file into the archive under its bare name (line 96) and returns
`True`. -/
def create_zip_archive (pdfNames : List String) : ZipResult :=
  if pdfNames = [] then ⟨false, none⟩
  else ⟨true, some pdfNames⟩

/-! ### The pipeline driver `main` (lines 103–173) -/

/-- Everything `main` observes from the outside world in one run:
the argument vector (`argv.head` is the script name), the formatted
wall-clock timestamp, the behaviour of the two dependency probes, the
resolved input-directory path and its filesystem status, the
`input_dir.glob('*.md')` listing (file names, in glob order), the `*.pdf`
files already sitting in `pdf_output` before the run, and the subprocess
outcome of each conversion. -/
structure Env where
  argv : List String
  timestamp : String
  pandocInvoke : InvokeResult
  pdflatexInvoke : InvokeResult
  inputDirPath : List String
  inputExists : Bool
  inputIsDir : Bool
  mdFiles : List String
  preexistingPdfs : List String
  outcome : String → ConvOutcome

/-- The default archive name of lines 122–123:
`phd_documents_<YYYYMMDD_HHMMSS>.zip`. -/
def defaultZipName (ts : String) : String :=
  "phd_documents_" ++ ts ++ ".zip"

/-- Lines 119–123: the second CLI argument if present, else the
timestamped default name. -/
def outputZipName (env : Env) : String :=
  if 3 ≤ env.argv.length then env.argv.getD 2 ""
  else defaultZipName env.timestamp

/-- PDF files produced by the current run: one per successful conversion,
named by `with_suffix('.pdf')` of the source name. -/
def producedPdfs (env : Env) : List String :=
  (env.mdFiles.filter (fun f => convert_md_to_pdf (env.outcome f))).map withSuffixPdf

/-- The fresh `pdf_dir.glob('*.pdf')` listing at archive time (line 88):
everything already in `pdf_output` before the run — nothing ever deletes
it — plus the newly produced PDFs not already listed. -/
def pdfListing (env : Env) : List String :=
  env.preexistingPdfs ++
    (producedPdfs env).filter (fun p => ¬ p ∈ env.preexistingPdfs)

/-- Observable outcome of one `main` run: the process exit code, the
conversion bookkeeping, whether `pdf_output` was created/ensured
(line 147), and — if a zip file was written — its path and member names. -/
structure RunResult where
  exitCode : Nat
  attempted : List String
  successCount : Nat
  failedFiles : List String
  outputDirCreated : Bool
  archive : Option (List String × List String)
deriving DecidableEq, Repr

/-- Outcome of every `sys.exit(1)` taken before the conversion loop. -/
def earlyExit1 : RunResult :=
  ⟨1, [], 0, [], false, none⟩

/-- `main`, lines 103–173.  Guard order follows the source: usage check
(105), dependency check (113), existence (126) and directory (130) checks
on the resolved input path, empty-discovery check (137), then the
conversion loop, then archiving into `input_dir / output_zip_name`
(line 167) with `sys.exit(1)` when `create_zip_archive` returns `False`. -/
def runMain (env : Env) : RunResult :=
  if env.argv.length < 2 then earlyExit1
  else if check_dependencies env.pandocInvoke env.pdflatexInvoke = false then earlyExit1
  else if env.inputExists = false then earlyExit1
  else if env.inputIsDir = false then earlyExit1
  else if env.mdFiles = [] then earlyExit1
  else
    let s := convLoop env.outcome env.mdFiles
    let target := env.inputDirPath ++ [outputZipName env]
    let z := create_zip_archive (pdfListing env)
    { exitCode := if z.ok then 0 else 1
      attempted := s.attempted
      successCount := s.successCount
      failedFiles := s.failedFiles
      outputDirCreated := true
      archive := z.written.map (fun ms => (target, ms)) }

/-! ### Spec-side path vocabulary

The spec claims the archive lands as a *sibling* of the input directory.
These two predicates spell out, on component lists, what "sibling of" and
"inside" mean, to compare with what `runMain` actually does. -/

/-- `p` is a sibling of `q`: distinct entries of the same parent directory. -/
def isSiblingOf (p q : List String) : Bool :=
  (p.dropLast == q.dropLast) && (p != q)

/-- `p` lies strictly inside directory `dir`. -/
def isInsideDir (p dir : List String) : Bool :=
  (p.take dir.length == dir) && decide (dir.length < p.length)

/-! ### Concrete runs used as test inputs -/

/-- A successful run with an explicit zip name: `python md_to_pdf_converter.py
docs out.zip`, input resolving to `/home/u/docs`, both tools present, one
Markdown file that converts cleanly. -/
def envDocs : Env :=
  { argv := ["md_to_pdf_converter.py", "docs", "out.zip"]
    timestamp := "20251012_120000"
    pandocInvoke := InvokeResult.ran 0
    pdflatexInvoke := InvokeResult.ran 0
    inputDirPath := ["home", "u", "docs"]
    inputExists := true
    inputIsDir := true
    mdFiles := ["a.md"]
    preexistingPdfs := []
    outcome := fun _ => ConvOutcome.completed 0 "" }

/-- A partial-failure run without an explicit zip name: `a.md` converts,
`b.md` makes pandoc exit 43. -/
def envPartial : Env :=
  { argv := ["md_to_pdf_converter.py", "docs"]
    timestamp := "20251012_130000"
    pandocInvoke := InvokeResult.ran 0
    pdflatexInvoke := InvokeResult.ran 0
    inputDirPath := ["home", "u", "docs"]
    inputExists := true
    inputIsDir := true
    mdFiles := ["a.md", "b.md"]
    preexistingPdfs := []
    outcome := fun f =>
      if f = "a.md" then ConvOutcome.completed 0 ""
      else ConvOutcome.completed 43 "pdflatex failed" }

/-- A run whose only conversion fails while a stray `stray.pdf`, written by
an earlier run, already sits in `pdf_output`. -/
def envStray : Env :=
  { argv := ["md_to_pdf_converter.py", "docs", "strays.zip"]
    timestamp := "20251012_140000"
    pandocInvoke := InvokeResult.ran 0
    pdflatexInvoke := InvokeResult.ran 0
    inputDirPath := ["home", "u", "docs"]
    inputExists := true
    inputIsDir := true
    mdFiles := ["a.md"]
    preexistingPdfs := ["stray.pdf"]
    outcome := fun _ => ConvOutcome.completed 1 "missing image" }

/-- A run in which every conversion times out and `pdf_output` starts
empty, so the archive-time `*.pdf` listing is empty. -/
def envNoPdfs : Env :=
  { argv := ["md_to_pdf_converter.py", "docs", "x.zip"]
    timestamp := "20251012_150000"
    pandocInvoke := InvokeResult.ran 0
    pdflatexInvoke := InvokeResult.ran 0
    inputDirPath := ["home", "u", "docs"]
    inputExists := true
    inputIsDir := true
    mdFiles := ["a.md"]
    preexistingPdfs := []
    outcome := fun _ => ConvOutcome.timedOut }

/-- A run on a valid, existing directory that contains no Markdown files
(but does hold an old PDF from some earlier run). -/
def envNoMd : Env :=
  { argv := ["md_to_pdf_converter.py", "docs"]
    timestamp := "20251012_160000"
    pandocInvoke := InvokeResult.ran 0
    pdflatexInvoke := InvokeResult.ran 0
    inputDirPath := ["home", "u", "docs"]
    inputExists := true
    inputIsDir := true
    mdFiles := []
    preexistingPdfs := ["old.pdf"]
    outcome := fun _ => ConvOutcome.timedOut }

/-! ## Helper lemmas -/

/-- Behaviour of the conversion loop from an arbitrary starting state:
the success/failure tallies grow by exactly one per file, failures are the
in-order filter of the non-converting files, and every file is attempted. -/
theorem convLoop_from (outcome : String → ConvOutcome) (files : List String)
    (init : ConvState) :
    (files.foldl (convStep outcome) init).successCount +
        (files.foldl (convStep outcome) init).failedFiles.length =
      init.successCount + init.failedFiles.length + files.length ∧
    (files.foldl (convStep outcome) init).failedFiles =
      init.failedFiles ++ files.filter (fun f => !(convert_md_to_pdf (outcome f))) ∧
    (files.foldl (convStep outcome) init).attempted = init.attempted ++ files := by
  induction files generalizing init with
  | nil => simp
  | cons f fs ih =>
    by_cases h : convert_md_to_pdf (outcome f) = true
    · obtain ⟨h1, h2, h3⟩ := ih { init with successCount := init.successCount + 1,
                                            attempted := init.attempted ++ [f] }
      refine ⟨?_, ?_, ?_⟩ <;>
        simp only [List.foldl_cons, convStep, h, if_true, List.filter_cons,
          Bool.not_true, List.append_assoc, List.singleton_append, List.length_cons] at h1 h2 h3 ⊢
      · omega
      · simpa using h2
      · simpa using h3
    · rw [Bool.not_eq_true] at h
      obtain ⟨h1, h2, h3⟩ := ih { init with failedFiles := init.failedFiles ++ [f],
                                            attempted := init.attempted ++ [f] }
      refine ⟨?_, ?_, ?_⟩ <;>
        simp only [List.foldl_cons, convStep, h, Bool.false_eq_true, if_false,
          List.filter_cons, Bool.not_false, List.append_assoc, List.singleton_append,
          List.length_cons, List.length_append, List.length_nil] at h1 h2 h3 ⊢
      · omega
      · simpa using h2
      · simpa using h3

/-- The last dot of `stem ++ ".md"` sits exactly where `".md"` starts. -/
theorem rfindDot_append_md (stem : List Char) :
    rfindDot (stem ++ ['.', 'm', 'd']) = some stem.length := by
  induction stem with
  | nil => rfl
  | cons c cs ih =>
    simp only [List.cons_append, rfindDot, List.append_eq, ih, List.length_cons]

/-- For a nonempty stem, the Python suffix of `stem ++ ".md"` is `".md"`. -/
theorem pySuffixLen_append_md (stem : List Char) (h : stem ≠ []) :
    pySuffixLen (stem ++ ['.', 'm', 'd']) = 3 := by
  have hl : 0 < stem.length := List.length_pos.mpr h
  simp only [pySuffixLen, rfindDot_append_md, List.length_append, List.length_cons,
    List.length_nil]
  rw [if_pos ⟨hl, by omega⟩]
  omega

/-- For a nonempty stem, `with_suffix('.pdf')` replaces `".md"` by `".pdf"`. -/
theorem pyWithSuffix_md_pdf (stem : List Char) (h : stem ≠ []) :
    pyWithSuffix (stem ++ ['.', 'm', 'd']) ['.', 'p', 'd', 'f'] =
      stem ++ ['.', 'p', 'd', 'f'] := by
  simp only [pyWithSuffix, pySuffixLen_append_md stem h]
  rw [if_neg (by omega)]
  have hlen : (stem ++ ['.', 'm', 'd']).length - 3 = stem.length := by
    simp only [List.length_append, List.length_cons, List.length_nil]
    omega
  rw [hlen, List.take_left]

/-- String-level version of `pyWithSuffix_md_pdf`. -/
theorem withSuffixPdf_md (stem : List Char) (h : stem ≠ []) :
    withSuffixPdf ⟨stem ++ ['.', 'm', 'd']⟩ = ⟨stem ++ ['.', 'p', 'd', 'f']⟩ :=
  congrArg String.mk (pyWithSuffix_md_pdf stem h)

/-! ## Claim theorems -/

/-- C4: for every discovered Markdown file whose conversion fails, that
file's name is appended to the failure list; the loop attempts every
discovered file; and the failure list is exactly the in-discovery-order
filter of the failing files, so its order equals discovery order and no
failure aborts the batch. -/
theorem conversion_loop_failures_in_order (outcome : String → ConvOutcome)
    (files : List String) :
    (convLoop outcome files).failedFiles =
      files.filter (fun f => !(convert_md_to_pdf (outcome f))) ∧
    (convLoop outcome files).attempted = files := by
  obtain ⟨-, h2, h3⟩ := convLoop_from outcome files ⟨0, [], []⟩
  exact ⟨by simpa using h2, by simpa using h3⟩

/-- C10: at every point during the conversion loop (after any number `k`
of files) the success count plus the failure-list length equals the number
of files processed so far, and after the whole loop it equals the total
number of discovered files. -/
theorem success_plus_failed_accounts_for_all (outcome : String → ConvOutcome)
    (files : List String) (k : Nat) :
    (convLoop outcome (files.take k)).successCount +
        (convLoop outcome (files.take k)).failedFiles.length = (files.take k).length ∧
    (convLoop outcome files).successCount +
        (convLoop outcome files).failedFiles.length = files.length := by
  constructor
  · obtain ⟨h1, -, -⟩ := convLoop_from outcome (files.take k) ⟨0, [], []⟩
    simpa using h1
  · obtain ⟨h1, -, -⟩ := convLoop_from outcome files ⟨0, [], []⟩
    simpa using h1

/-- C5: the conversion invoker returns `true` iff the subprocess runs to
completion with exit code zero; it returns `false` on a timeout and on any
other invocation exception (it is a total function, never raising to its
caller); and within a run each discovered file is attempted exactly as
often as it is discovered — once, with no retry. -/
theorem convert_result_characterised (o : ConvOutcome)
    (outcome : String → ConvOutcome) (files : List String) (f : String) :
    (convert_md_to_pdf o = true ↔ ∃ s, o = ConvOutcome.completed 0 s) ∧
    convert_md_to_pdf ConvOutcome.timedOut = false ∧
    (∀ m, convert_md_to_pdf (ConvOutcome.exn m) = false) ∧
    (convLoop outcome files).attempted.count f = files.count f := by
  refine ⟨?_, rfl, fun m => rfl, ?_⟩
  · cases o with
    | completed rc s =>
      simp only [convert_md_to_pdf, decide_eq_true_eq]
      constructor
      · intro h; exact ⟨s, by rw [h]⟩
      · rintro ⟨t, ht⟩
        simp only [ConvOutcome.completed.injEq] at ht
        exact ht.1
    | timedOut => simp [convert_md_to_pdf]
    | exn m => simp [convert_md_to_pdf]
  · obtain ⟨-, -, h3⟩ := convLoop_from outcome files ⟨0, [], []⟩
    rw [show (convLoop outcome files).attempted = files by simpa using h3]

/-- C9: the derived output path is the output directory extended by the
input's base name with `.md` replaced by `.pdf`; it is a deterministic
function of the input name, and two inputs collide exactly when their base
names coincide. -/
theorem output_path_deterministic (outputDir : List String) (stem1 stem2 : List Char)
    (h1 : stem1 ≠ []) (h2 : stem2 ≠ []) :
    pdfPathFor outputDir ⟨stem1 ++ ['.', 'm', 'd']⟩ =
      outputDir ++ [⟨stem1 ++ ['.', 'p', 'd', 'f']⟩] ∧
    (pdfPathFor outputDir ⟨stem1 ++ ['.', 'm', 'd']⟩ =
        pdfPathFor outputDir ⟨stem2 ++ ['.', 'm', 'd']⟩ ↔ stem1 = stem2) := by
  constructor
  · rw [pdfPathFor, withSuffixPdf_md stem1 h1]
  · rw [pdfPathFor, pdfPathFor, withSuffixPdf_md stem1 h1, withSuffixPdf_md stem2 h2]
    constructor
    · intro hEq
      have hx : (String.mk (stem1 ++ ['.', 'p', 'd', 'f'])) =
          String.mk (stem2 ++ ['.', 'p', 'd', 'f']) := by
        simpa using hEq
      have hdata : stem1 ++ ['.', 'p', 'd', 'f'] = stem2 ++ ['.', 'p', 'd', 'f'] := by
        injection hx
      exact List.append_left_injective _ hdata
    · intro hEq; rw [hEq]

/-- Witness for C9 at concrete stems `"a"` and `"b"`. -/
theorem output_path_deterministic_witness :
    (['a'] : List Char) ≠ [] ∧ (['b'] : List Char) ≠ [] ∧
    (pdfPathFor ["out"] ⟨['a'] ++ ['.', 'm', 'd']⟩ =
      ["out"] ++ [⟨['a'] ++ ['.', 'p', 'd', 'f']⟩] ∧
    (pdfPathFor ["out"] ⟨['a'] ++ ['.', 'm', 'd']⟩ =
        pdfPathFor ["out"] ⟨['b'] ++ ['.', 'm', 'd']⟩ ↔ ['a'] = ['b'])) :=
  ⟨by decide, by decide,
    output_path_deterministic ["out"] ['a'] ['b'] (by decide) (by decide)⟩

/-- When every guard before the conversion loop passes, `main` runs the
loop and the archive step; the rest of the run is determined by the loop
state and the fresh PDF listing. -/
theorem runMain_past_guards (env : Env)
    (h1 : 2 ≤ env.argv.length)
    (h2 : check_dependencies env.pandocInvoke env.pdflatexInvoke = true)
    (h3 : env.inputExists = true) (h4 : env.inputIsDir = true)
    (h5 : env.mdFiles ≠ []) :
    runMain env =
      { exitCode := if (create_zip_archive (pdfListing env)).ok then 0 else 1
        attempted := (convLoop env.outcome env.mdFiles).attempted
        successCount := (convLoop env.outcome env.mdFiles).successCount
        failedFiles := (convLoop env.outcome env.mdFiles).failedFiles
        outputDirCreated := true
        archive := (create_zip_archive (pdfListing env)).written.map
          (fun ms => (env.inputDirPath ++ [outputZipName env], ms)) } := by
  rw [runMain, if_neg (by omega), if_neg (by simp [h2]), if_neg (by simp [h3]),
    if_neg (by simp [h4]), if_neg h5]

/-- A nonempty fresh listing makes `create_zip_archive` succeed and write
exactly the listed names. -/
theorem create_zip_archive_nonempty (pdfNames : List String) (h : pdfNames ≠ []) :
    create_zip_archive pdfNames = ⟨true, some pdfNames⟩ := by
  rw [create_zip_archive, if_neg h]

/-- C3: whenever argument parsing, the dependency check, the input
directory checks, file discovery and archive creation all succeed, `main`
falls off the end of the pipeline and the process exits with code 0 — with
no condition on the per-file conversion outcomes, so per-file failures
alone never force a non-zero exit. -/
theorem exit_zero_despite_partial_failures (env : Env)
    (h1 : 2 ≤ env.argv.length)
    (h2 : check_dependencies env.pandocInvoke env.pdflatexInvoke = true)
    (h3 : env.inputExists = true) (h4 : env.inputIsDir = true)
    (h5 : env.mdFiles ≠ []) (h6 : pdfListing env ≠ []) :
    (runMain env).exitCode = 0 := by
  rw [runMain_past_guards env h1 h2 h3 h4 h5, create_zip_archive_nonempty _ h6]
  rfl

/-- Witness for C3: a concrete run in which `b.md` fails to convert
(`failed_files = ["b.md"]`) still exits with code 0. -/
theorem exit_zero_despite_partial_failures_witness :
    (2 ≤ envPartial.argv.length ∧
      check_dependencies envPartial.pandocInvoke envPartial.pdflatexInvoke = true ∧
      envPartial.inputExists = true ∧ envPartial.inputIsDir = true ∧
      envPartial.mdFiles ≠ [] ∧ pdfListing envPartial ≠ [] ∧
      (runMain envPartial).failedFiles = ["b.md"]) ∧
    (runMain envPartial).exitCode = 0 :=
  ⟨by decide,
    exit_zero_despite_partial_failures envPartial (by decide) (by decide) (by decide)
      (by decide) (by decide) (by decide)⟩

/-- C2: when the run reaches a successful archive step, the archive's
member list is exactly the fresh `*.pdf` listing of the output directory
taken at archive time — the in-memory success list plays no role in
`create_zip_archive` — and every PDF already present in the directory
before the run is a member. -/
theorem archive_members_from_fresh_listing (env : Env)
    (h1 : 2 ≤ env.argv.length)
    (h2 : check_dependencies env.pandocInvoke env.pdflatexInvoke = true)
    (h3 : env.inputExists = true) (h4 : env.inputIsDir = true)
    (h5 : env.mdFiles ≠ []) (h6 : pdfListing env ≠ []) :
    (runMain env).archive =
      some (env.inputDirPath ++ [outputZipName env], pdfListing env) ∧
    ∀ p ∈ env.preexistingPdfs, p ∈ pdfListing env := by
  constructor
  · rw [runMain_past_guards env h1 h2 h3 h4 h5, create_zip_archive_nonempty _ h6]
    rfl
  · intro p hp
    rw [pdfListing]
    exact List.mem_append_left _ hp

/-- Witness for C2: the stray pre-existing `stray.pdf` is archived even
though the run's only conversion failed. -/
theorem archive_members_from_fresh_listing_witness :
    (pdfListing envStray ≠ [] ∧ pdfListing envStray = ["stray.pdf"]) ∧
    (runMain envStray).archive =
      some (envStray.inputDirPath ++ [outputZipName envStray], pdfListing envStray) ∧
    "stray.pdf" ∈ pdfListing envStray :=
  ⟨by decide,
    (archive_members_from_fresh_listing envStray (by decide) (by decide) (by decide)
        (by decide) (by decide) (by decide)).1,
    (archive_members_from_fresh_listing envStray (by decide) (by decide) (by decide)
        (by decide) (by decide) (by decide)).2 "stray.pdf" (by decide)⟩

/-- C6: with an empty archive-time `*.pdf` listing, `create_zip_archive`
returns `False` without writing any file, `main` reports no archive, and
the process exits 1. -/
theorem empty_listing_no_archive_exit_one (env : Env)
    (h1 : 2 ≤ env.argv.length)
    (h2 : check_dependencies env.pandocInvoke env.pdflatexInvoke = true)
    (h3 : env.inputExists = true) (h4 : env.inputIsDir = true)
    (h5 : env.mdFiles ≠ []) (h6 : pdfListing env = []) :
    create_zip_archive (pdfListing env) = ⟨false, none⟩ ∧
    (runMain env).archive = none ∧ (runMain env).exitCode = 1 := by
  have hz : create_zip_archive (pdfListing env) = ⟨false, none⟩ := by
    rw [h6]; rfl
  refine ⟨hz, ?_, ?_⟩ <;> rw [runMain_past_guards env h1 h2 h3 h4 h5, hz] <;> rfl

/-- Witness for C6: every conversion times out, `pdf_output` is empty, and
the run ends with exit code 1 and no archive. -/
theorem empty_listing_no_archive_exit_one_witness :
    (2 ≤ envNoPdfs.argv.length ∧
      check_dependencies envNoPdfs.pandocInvoke envNoPdfs.pdflatexInvoke = true ∧
      envNoPdfs.inputExists = true ∧ envNoPdfs.inputIsDir = true ∧
      envNoPdfs.mdFiles ≠ [] ∧ pdfListing envNoPdfs = []) ∧
    (create_zip_archive (pdfListing envNoPdfs) = ⟨false, none⟩ ∧
      (runMain envNoPdfs).archive = none ∧ (runMain envNoPdfs).exitCode = 1) :=
  ⟨by decide,
    empty_listing_no_archive_exit_one envNoPdfs (by decide) (by decide) (by decide)
      (by decide) (by decide) (by decide)⟩

/-- C7: `check_dependencies` returns `True` iff the `missing` list is
empty; a tool lands on that list exactly when its probe raises
`FileNotFoundError`; and two tools that start but exit non-zero (present
but broken) still yield `True`. -/
theorem check_dependencies_characterised (p q : InvokeResult) (rc rc2 : Int) :
    (check_dependencies p q = true ↔ missingTools p q = []) ∧
    (missingTools p q = [] ↔
      (p ≠ InvokeResult.fileNotFound ∧ q ≠ InvokeResult.fileNotFound)) ∧
    check_dependencies (InvokeResult.ran rc) (InvokeResult.ran rc2) = true := by
  refine ⟨?_, ?_, ?_⟩
  · rw [check_dependencies]
    exact decide_eq_true_iff
  · cases p <;> cases q <;> simp [missingTools]
  · rw [check_dependencies]
    simp [missingTools]

/-- C8: with zero discovered Markdown files (and every earlier guard
passing), `main` exits 1 immediately: no converter is invoked and
`pdf_output` is never created. -/
theorem no_md_files_early_exit (env : Env)
    (h1 : 2 ≤ env.argv.length)
    (h2 : check_dependencies env.pandocInvoke env.pdflatexInvoke = true)
    (h3 : env.inputExists = true) (h4 : env.inputIsDir = true)
    (h5 : env.mdFiles = []) :
    runMain env = earlyExit1 ∧ (runMain env).exitCode = 1 ∧
    (runMain env).attempted = [] ∧ (runMain env).outputDirCreated = false := by
  have h : runMain env = earlyExit1 := by
    rw [runMain, if_neg (by omega), if_neg (by simp [h2]), if_neg (by simp [h3]),
      if_neg (by simp [h4]), if_pos h5]
  exact ⟨h, by rw [h]; rfl, by rw [h]; rfl, by rw [h]; rfl⟩

/-- Witness for C8: the `envNoMd` run exits 1 with nothing attempted. -/
theorem no_md_files_early_exit_witness :
    (2 ≤ envNoMd.argv.length ∧
      check_dependencies envNoMd.pandocInvoke envNoMd.pdflatexInvoke = true ∧
      envNoMd.inputExists = true ∧ envNoMd.inputIsDir = true ∧
      envNoMd.mdFiles = []) ∧
    (runMain envNoMd = earlyExit1 ∧ (runMain envNoMd).exitCode = 1 ∧
      (runMain envNoMd).attempted = [] ∧ (runMain envNoMd).outputDirCreated = false) :=
  ⟨by decide,
    no_md_files_early_exit envNoMd (by decide) (by decide) (by decide) (by decide)
      (by decide)⟩

/-- C1 is false as stated: on the concrete run `envDocs` the archive is
written at `input_dir / "out.zip"` — strictly inside the input directory —
and is not a sibling of the input directory. -/
theorem archive_not_sibling_counterexample :
    (runMain envDocs).archive =
      some (["home", "u", "docs", "out.zip"], ["a.pdf"]) ∧
    isSiblingOf ["home", "u", "docs", "out.zip"] ["home", "u", "docs"] = false ∧
    isInsideDir ["home", "u", "docs", "out.zip"] ["home", "u", "docs"] = true := by
  refine ⟨by decide, by decide, by decide⟩

/-- C1 (amended): every run that reaches a successful archiving stage
writes the archive strictly inside the input directory, as the child
`input_dir / name`, where `name` is the second CLI argument when given and
`phd_documents_<timestamp>.zip` otherwise. -/
theorem archive_written_inside_input_dir (env : Env)
    (h1 : 2 ≤ env.argv.length)
    (h2 : check_dependencies env.pandocInvoke env.pdflatexInvoke = true)
    (h3 : env.inputExists = true) (h4 : env.inputIsDir = true)
    (h5 : env.mdFiles ≠ []) (h6 : pdfListing env ≠ []) :
    (runMain env).archive =
      some (env.inputDirPath ++ [outputZipName env], pdfListing env) ∧
    isInsideDir (env.inputDirPath ++ [outputZipName env]) env.inputDirPath = true ∧
    (3 ≤ env.argv.length → outputZipName env = env.argv.getD 2 "") ∧
    (env.argv.length < 3 →
      outputZipName env = "phd_documents_" ++ env.timestamp ++ ".zip") := by
  refine ⟨?_, ?_, ?_, ?_⟩
  · rw [runMain_past_guards env h1 h2 h3 h4 h5, create_zip_archive_nonempty _ h6]
    rfl
  · simp [isInsideDir, List.take_left, List.length_append]
  · intro h; rw [outputZipName, if_pos h]
  · intro h; rw [outputZipName, if_neg (by omega)]; rfl

/-- Witness for the amended C1 at the concrete run `envDocs`. -/
theorem archive_written_inside_input_dir_witness :
    (2 ≤ envDocs.argv.length ∧
      check_dependencies envDocs.pandocInvoke envDocs.pdflatexInvoke = true ∧
      envDocs.inputExists = true ∧ envDocs.inputIsDir = true ∧
      envDocs.mdFiles ≠ [] ∧ pdfListing envDocs ≠ []) ∧
    ((runMain envDocs).archive =
        some (envDocs.inputDirPath ++ [outputZipName envDocs], pdfListing envDocs) ∧
      isInsideDir (envDocs.inputDirPath ++ [outputZipName envDocs])
          envDocs.inputDirPath = true ∧
      (3 ≤ envDocs.argv.length → outputZipName envDocs = envDocs.argv.getD 2 "") ∧
      (envDocs.argv.length < 3 →
        outputZipName envDocs = "phd_documents_" ++ envDocs.timestamp ++ ".zip")) :=
  ⟨by decide,
    archive_written_inside_input_dir envDocs (by decide) (by decide) (by decide)
      (by decide) (by decide) (by decide)⟩

end MdToPdf
